import Mathlib

/-!
Verification development for the ESG query/analysis application (`app3.py`).

The file shallowly embeds the three core components the claims talk about:

* the record resolver `get_company_by_selection` (source lines 196-231),
* the metrics / narrative engine `generate_esg_analysis` (source lines 395-532),
  split here into `esgScores` / `quantValues` / `computeMetrics` / `gradeOf`
  and the report-string builder `generate_esg_analysis`,
* the PDF renderer's line classifier `classifyLine` (source lines 332-347).

Machine values are modelled as follows: a pandas row becomes a `Record` whose
per-year cells are an association list of raw cell strings (a missing cell is
looked up as `"nan"`, the `str()` image of pandas `NaN`); the dataset-level
facts the analysis reads (which supported years actually have both a rating
and a quant column) become a `Config`.  Python `float` averages become exact
rationals `ℚ`; for the score lists that actually occur (sums of at most twelve
scores of at most seven) the `"%.1f"` formatting of the binary double agrees
with exact half-even rounding of the rational, which `fmt1` implements.
-/

/-- `years = list(range(2009, 2021))` (source line 155). -/
def years : List Nat := List.range' 2009 12

/-- Dataset-level configuration: `hasCols y` says that both a rating column and
a quant column containing the digits of `y` exist (`rating_col`/`quant_col`
lookups, source lines 409-412). -/
structure Config where
  hasCols : Nat → Bool

/-- The supported years for which the per-year loop of `generate_esg_analysis`
actually appends an entry to `esg_data` (source lines 408-424):
iteration order is the order of `years`. -/
def esgYears (cfg : Config) : List Nat := years.filter cfg.hasCols

/-- One company row, as `get_company_by_selection` returns it: the cleaned
string columns `证券代码` / `证券简称` / `上市日期` (source lines 150-152) and the
raw per-year rating and quant cells, keyed by year. -/
structure Record where
  code : String
  name : String
  listingDate : String
  rating : List (Nat × String)
  quant : List (Nat × String)
deriving DecidableEq

/-- The raw quant cell of year `y`, as the Python sees it after `str()`:
a missing cell is pandas `NaN`, whose `str()` image is `"nan"`. -/
def quantCell (r : Record) (y : Nat) : String := (r.quant.lookup y).getD "nan"

/-- Digit-string to number, most significant digit first. -/
def natOfDigits (cs : List Char) : Nat :=
  cs.foldl (fun n c => 10 * n + (c.toNat - 48)) 0

/-- The score parser of source lines 415-418:
`int(float(v)) if str(v).replace('.','').isdigit() else 0`, with any
exception yielding `0`.  Removing every dot must leave a nonempty all-digit
string; then zero dots give the integer value, exactly one dot gives the
truncated value (the digits before the dot), and two or more dots make
`float()` raise, which the bare `except` turns into `0`.  ASCII model of
Python's `str.isdigit`. -/
def quantParse (s : String) : Nat :=
  let cs := s.toList
  let stripped := cs.filter (fun c => c != '.')
  if stripped.isEmpty || !(stripped.all Char.isDigit) then 0
  else
    match (cs.filter (fun c => c == '.')).length with
    | 0 => natOfDigits cs
    | 1 => natOfDigits (cs.takeWhile (fun c => c != '.'))
    | _ => 0

/-- The `esg_data` list of source lines 407-424, reduced to the fields the
metrics read: one `(年份, 量化值)` pair per supported year that has both
columns, in chronological order. -/
def esgScores (cfg : Config) (r : Record) : List (Nat × Nat) :=
  (esgYears cfg).map (fun y => (y, quantParse (quantCell r y)))

/-- `quant_values = [item['量化值'] for item in esg_data if item['量化值'] > 0]`
(source line 428). -/
def quantValues (cfg : Config) (r : Record) : List Nat :=
  ((esgScores cfg r).map (fun e => e.2)).filter (fun v => decide (0 < v))

/-- The trend strings 上升 / 下降 / 稳定 of source lines 436-441. -/
inductive Trend where
  | rising
  | falling
  | stable
deriving DecidableEq

/-- The level strings 优秀 / 良好 / 中等 / 待提升 of source lines 451-467. -/
inductive Level where
  | excellent
  | good
  | moderate
  | needsImprovement
deriving DecidableEq

/-- The derived indicators of source lines 427-449. -/
structure Metrics where
  avg : ℚ
  maxv : Nat
  minv : Nat
  latest : Nat
  latestYear : Nat
  trend : Trend
deriving DecidableEq

/-- Source lines 427-449.  When `esg_data` is nonempty: the average / max /
min over the positive scores (with point fallbacks 3 / 4 / 2 when no score is
positive), the latest value and year taken from the *last entry of
`esg_data`*, and the first-versus-last trend once at least three positive
scores exist.  When `esg_data` is empty: the full fallback tuple
`(3, 4, 2, 3, '2020', 稳定)` (the Python fallback year is the string
`'2020'`, which prints identically to the number `2020` used here). -/
def computeMetrics (cfg : Config) (r : Record) : Metrics :=
  let es := esgScores cfg r
  let qs := quantValues cfg r
  if es.isEmpty then
    ⟨3, 4, 2, 3, 2020, .stable⟩
  else
    ⟨if qs.isEmpty then 3 else (qs.sum : ℚ) / (qs.length : ℚ),
     match qs with | [] => 4 | v :: vs => vs.foldl max v,
     match qs with | [] => 2 | v :: vs => vs.foldl min v,
     (es.getLastD (0, 0)).2,
     (es.getLastD (0, 0)).1,
     if 3 ≤ qs.length then
       if qs.headD 0 < qs.getLastD 0 then .rising
       else if qs.getLastD 0 < qs.headD 0 then .falling
       else .stable
     else .stable⟩

/-- The three level-derived strings set together by the if-chain of source
lines 451-467. -/
structure Grade where
  level : Level
  foundation : String
  cycle : String
deriving DecidableEq

/-- Source lines 451-467: inclusive lower bounds on `avg_value`, first match
wins. -/
def gradeOf (a : ℚ) : Grade :=
  if 5 ≤ a then ⟨.excellent, "雄厚", "6-12个月"⟩
  else if 4 ≤ a then ⟨.good, "较强", "12-24个月"⟩
  else if 3 ≤ a then ⟨.moderate, "一般", "12-24个月"⟩
  else ⟨.needsImprovement, "薄弱", "24-36个月"⟩

/-- The tier the analysis assigns to a record: the level of source lines
451-467 evaluated at the record's `avg_value`. -/
def tierOf (cfg : Config) (r : Record) : Level :=
  (gradeOf (computeMetrics cfg r).avg).level

/-- The level strings interpolated into the report. -/
def levelName : Level → String
  | .excellent => "优秀"
  | .good => "良好"
  | .moderate => "中等"
  | .needsImprovement => "待提升"

/-- The trend strings interpolated into the report. -/
def trendName : Trend → String
  | .rising => "上升"
  | .falling => "下降"
  | .stable => "稳定"

/-- The four-way strategy text of source lines 491-494, keyed by `level`. -/
def strategyOf : Level → String
  | .excellent => "作为ESG优秀企业，建议打造行业数字化标杆，建立ESG数据中台和AI风险预警系统。"
  | .good => "作为ESG良好企业，建议优化数据采集流程，建立可视化管理看板，提升数字化能力。"
  | .moderate => "作为ESG中等企业，建议夯实数据基础，部署标准化管理软件，分阶段推进转型。"
  | .needsImprovement => "作为ESG待提升企业，建议先解决数据缺失问题，引入轻量化工具，逐步提升管理水平。"

/-- Round to the nearest integer, ties to even — the rounding Python's
`"%.1f"` applies to the (here exactly representable) tenfold value. -/
def roundHalfEven (t : ℚ) : ℤ :=
  let f := ⌊t⌋
  let r := t - f
  if r < 1 / 2 then f
  else if 1 / 2 < r then f + 1
  else if f % 2 = 0 then f else f + 1

/-- `f"{x:.1f}"` for the nonnegative averages that occur. -/
def fmt1 (q : ℚ) : String :=
  let n := (roundHalfEven (10 * q)).toNat
  toString (n / 10) ++ "." ++ toString (n % 10)

/-- `generate_esg_analysis` (source lines 395-516): `None` yields the
placeholder report of line 398; otherwise the metrics and grade are computed
and interpolated into the fixed template of lines 470-515. -/
def generate_esg_analysis (cfg : Config) (company : Option Record) : String :=
  match company with
  | none => "# 暂无企业数据\n\n## 请选择企业后查看详细分析报告"
  | some r =>
    let m := computeMetrics cfg r
    let g := gradeOf m.avg
    "# " ++ r.name ++ "(" ++ r.code ++ ") ESG数字化转型分析报告\n\n" ++
    "## 一、企业基础信息\n" ++
    "- **企业名称**: " ++ r.name ++ "\n" ++
    "- **证券代码**: " ++ r.code ++ "\n" ++
    "- **上市日期**: " ++ r.listingDate ++ "\n" ++
    "- **数据覆盖**: 2009-2020年ESG评级数据\n\n" ++
    "## 二、ESG表现综合评估\n### 2.1 整体水平\n" ++
    r.name ++ "的ESG量化值平均为" ++ fmt1 m.avg ++ "分（满分6分），在行业中属于" ++
    levelName g.level ++ "水平，具备" ++ g.foundation ++ "的可持续发展基础。\n\n" ++
    "### 2.2 关键指标\n" ++
    "- **平均量化值**: " ++ fmt1 m.avg ++ "分\n" ++
    "- **最高量化值**: " ++ toString m.maxv ++ "分\n" ++
    "- **最低量化值**: " ++ toString m.minv ++ "分\n" ++
    "- **最新量化值**: " ++ toString m.latest ++ "分（" ++ toString m.latestYear ++ "年）\n" ++
    "- **发展趋势**: " ++ trendName m.trend ++ "趋势\n\n" ++
    "## 三、数字化转型战略建议\n### 3.1 战略定位\n" ++ strategyOf g.level ++ "\n\n" ++
    "### 3.2 实施路径\n" ++
    "1. **准备阶段**（1-3个月）：现状调研、需求分析、方案设计\n" ++
    "2. **实施阶段**（3-12个月）：系统部署、数据迁移、人员培训\n" ++
    "3. **优化阶段**（12-24个月）：效果评估、持续改进\n\n" ++
    "## 四、风险提示与预期效益\n### 4.1 主要风险\n" ++
    "1. **技术风险**：系统选型不当导致兼容性问题\n" ++
    "2. **数据风险**：数据质量不高影响分析结果\n" ++
    "3. **落地风险**：员工数字化能力不足导致推进困难\n\n" ++
    "### 4.2 预期效益\n" ++
    "1. **效率提升**：ESG管理效率提升30%-50%\n" ++
    "2. **质量改善**：数据准确性提升至95%以上\n" ++
    "3. **决策支持**：为管理层提供数据驱动的决策依据\n" ++
    "4. **评级提升**：预计" ++ g.cycle ++ "内ESG评级提升1-2个等级\n\n" ++
    "## 五、结论\n" ++ r.name ++ "通过系统化的数字化转型，有望在" ++ g.cycle ++
    "内实现ESG管理水平的显著提升，为企业可持续发展奠定坚实基础。\n"

/-- `企业展示名称 = 证券简称 + "（" + 证券代码 + "）"` (source line 170). -/
def displayName (r : Record) : String := r.name ++ "（" ++ r.code ++ "）"

/-- `re.search(r'（(.*?)）', s)` group 1 (source line 207): the text between
the first full-width `（` and the first `）` after it, if both exist. -/
def extractCode (s : String) : Option String :=
  let rest := (s.toList.dropWhile (fun c => c != '（')).drop 1
  if rest.contains '）' then some (String.mk (rest.takeWhile (fun c => c != '）')))
  else none

/-- `s.split("（")[0]` (source line 214): everything before the first
full-width `（`. -/
def beforeBracket (s : String) : String :=
  String.mk (s.toList.takeWhile (fun c => c != '（'))

/-- Result of the resolver: either the sentinel / empty selection, or a row
together with the match-quality flag (`false` exactly when the 终极兜底 warning
of source line 223 fires). -/
inductive Resolved where
  | noSelection
  | found (r : Record) (exact : Bool)
deriving DecidableEq

/-- `get_company_by_selection` (source lines 196-231).  Sentinel and empty
selection give no record; a bracketed selection is matched by `证券代码`, an
unbracketed one by `证券简称` on the pre-bracket prefix; an empty result falls
back to the `企业展示名称` match and finally to the first row with a warning.
(On an empty dataframe the Python `iloc[0]` calls raise; `load_data` always
yields at least one row, so that branch is modelled as `noSelection`.) -/
def get_company_by_selection (ds : List Record) (sel : String) : Resolved :=
  if sel = "" ∨ sel = "请选择企业" then .noSelection
  else
    let primary :=
      match extractCode sel with
      | some code => ds.filter (fun r => r.code == code)
      | none => ds.filter (fun r => r.name == beforeBracket sel)
    let cand := if primary.isEmpty then ds.filter (fun r => displayName r == sel) else primary
    match cand with
    | r :: _ => .found r true
    | [] =>
      match ds with
      | r :: _ => .found r false
      | [] => .noSelection

/-- The paragraph styles of the PDF renderer (source lines 261-347) that the
per-line classifier can assign. -/
inductive LineStyle where
  | h2
  | h3
  | listItem
  | body
  | spacer
deriving DecidableEq

/-- The renderer's per-line style classifier (source lines 333-347):
`line.strip()`, blank lines become spacers, then the prefix chain
`一、`/`1.` → Heading-2, `（一）`/`2.` → Heading-3, `- `/`• ` → list item,
anything else → body.  `String.trim` is the ASCII-whitespace model of
Python's `str.strip`. -/
def classifyLine (s : String) : LineStyle :=
  let line := s.trim
  if line = "" then .spacer
  else if line.startsWith "一、" || line.startsWith "1." then .h2
  else if line.startsWith "（一）" || line.startsWith "2." then .h3
  else if line.startsWith "- " || line.startsWith "• " then .listItem
  else .body

/-! ### Shared helper lemmas and sample data -/

theorem esgScores_eq_nil_iff (cfg : Config) (r : Record) :
    esgScores cfg r = [] ↔ esgYears cfg = [] := by
  unfold esgScores; exact List.map_eq_nil_iff

theorem computeMetrics_of_no_years (cfg : Config) (r : Record) (h : esgYears cfg = []) :
    computeMetrics cfg r = ⟨3, 4, 2, 3, 2020, .stable⟩ := by
  have hes : esgScores cfg r = [] := (esgScores_eq_nil_iff cfg r).mpr h
  simp [computeMetrics, hes]

theorem computeMetrics_latest_concat (cfg : Config) (r : Record) (ys : List Nat) (y : Nat)
    (h : esgYears cfg = ys ++ [y]) :
    (computeMetrics cfg r).latest = quantParse (quantCell r y) ∧
    (computeMetrics cfg r).latestYear = y := by
  have hes : esgScores cfg r =
      (ys.map fun z => (z, quantParse (quantCell r z))) ++ [(y, quantParse (quantCell r y))] := by
    unfold esgScores; rw [h, List.map_append]; rfl
  constructor <;> simp [computeMetrics, hes, List.getLastD_concat]

/-- Sample configuration: rating and quant columns exist for 2019 and 2020
(as in the built-in sample dataset of source lines 128-137). -/
def cfg1 : Config := ⟨fun y => y == 2019 || y == 2020⟩

/-- A record whose 2019 and 2020 quant cells are `"0"`: every supported year
has both columns, but no year yields a valid (positive) score. -/
def rz : Record := ⟨"000001", "示例企业", "2000-01-01", [], [(2019, "0"), (2020, "0")]⟩

/-- A record whose 2019 cell holds the valid score 5 and whose 2020 cell is
non-numeric: the chronologically last year with a valid score is 2019. -/
def rc : Record := ⟨"000001", "示例企业", "2000-01-01", [], [(2019, "5"), (2020, "abc")]⟩

/-! ### C1 -/

/-- C1 is false as stated: for the sample configuration and a record whose
supported years all parse to the invalid score 0, `quantValues` is empty, yet
the computed `latest` is `0` — the parsed score of the last present year —
and not the claimed fallback value `3`. -/
theorem zeroValid_fallback_counterexample :
    quantValues cfg1 rz = [] ∧
    (computeMetrics cfg1 rz).latest = 0 ∧ ¬ (computeMetrics cfg1 rz).latest = 3 := by
  decide

/-- C1 (amended): for every record with zero valid scores the metrics are
`average = 3`, `max = 4`, `min = 2`, `trend = Stable`; the full fallback tuple
`(3, 4, 2, 3, 2020, Stable)` is produced only when no supported year has its
columns at all, and otherwise `latest_score` is the (invalid, parsed-to-0)
score of the last present year and `latest_year` is that year. -/
theorem zeroValid_metrics_amended (cfg : Config) (r : Record)
    (h : quantValues cfg r = []) :
    (computeMetrics cfg r).avg = 3 ∧ (computeMetrics cfg r).maxv = 4 ∧
    (computeMetrics cfg r).minv = 2 ∧ (computeMetrics cfg r).trend = .stable ∧
    (esgYears cfg = [] → computeMetrics cfg r = ⟨3, 4, 2, 3, 2020, .stable⟩) ∧
    (∀ ys y, esgYears cfg = ys ++ [y] →
      (computeMetrics cfg r).latest = quantParse (quantCell r y) ∧
      (computeMetrics cfg r).latestYear = y) := by
  have h4 : (computeMetrics cfg r).avg = 3 ∧ (computeMetrics cfg r).maxv = 4 ∧
      (computeMetrics cfg r).minv = 2 ∧ (computeMetrics cfg r).trend = .stable := by
    by_cases hes : esgScores cfg r = []
    · simp [computeMetrics, hes]
    · refine ⟨?_, ?_, ?_, ?_⟩ <;> simp [computeMetrics, hes, h]
  exact ⟨h4.1, h4.2.1, h4.2.2.1, h4.2.2.2,
    fun hy => computeMetrics_of_no_years cfg r hy,
    fun ys y hy => computeMetrics_latest_concat cfg r ys y hy⟩

/-- Witness for C1 (amended) at the sample configuration and the all-zero
record. -/
theorem zeroValid_metrics_amended_witness :
    quantValues cfg1 rz = [] ∧ esgYears cfg1 = [2019] ++ [2020] ∧
    (computeMetrics cfg1 rz).avg = 3 ∧ (computeMetrics cfg1 rz).latestYear = 2020 := by
  refine ⟨by decide, by decide, ?_, ?_⟩
  · exact (zeroValid_metrics_amended cfg1 rz (by decide)).1
  · exact ((zeroValid_metrics_amended cfg1 rz (by decide)).2.2.2.2.2 [2019] 2020 (by decide)).2

/-! ### C2 -/

/-- C2 is false as stated: for a record whose last valid year is 2019 (score
5) while 2020 has a non-numeric cell, the code reports `latest = 0` and
`latest_year = 2020` — the last *present* year — not the chronologically last
*valid* year 2019 with its score 5. -/
theorem latest_valid_counterexample :
    quantValues cfg1 rc = [5] ∧
    (esgYears cfg1).filter (fun y => decide (0 < quantParse (quantCell rc y))) = [2019] ∧
    (computeMetrics cfg1 rc).latest = 0 ∧
    (computeMetrics cfg1 rc).latestYear = 2020 ∧
    ¬ ((computeMetrics cfg1 rc).latest = 5 ∧ (computeMetrics cfg1 rc).latestYear = 2019) := by
  decide

/-- C2 (amended): `latest_score` / `latest_year` are taken from the last
entry of the year series — the chronologically last supported year that has
both columns — regardless of whether that year's score is valid. -/
theorem latest_from_last_present_year (cfg : Config) (r : Record) (ys : List Nat) (y : Nat)
    (h : esgYears cfg = ys ++ [y]) :
    (computeMetrics cfg r).latest = quantParse (quantCell r y) ∧
    (computeMetrics cfg r).latestYear = y :=
  computeMetrics_latest_concat cfg r ys y h

/-- Witness for C2 (amended) at the sample configuration and the record whose
2020 cell is non-numeric. -/
theorem latest_from_last_present_year_witness :
    (computeMetrics cfg1 rc).latest = 0 ∧ (computeMetrics cfg1 rc).latestYear = 2020 := by
  have h := latest_from_last_present_year cfg1 rc [2019] 2020 (by decide)
  exact ⟨by rw [h.1]; decide, h.2⟩

/-! ### C3 -/

/-- Two sample rows and the dataset formed from them, used to exercise the
resolver. -/
def rec0 : Record := ⟨"000002", "万科", "1991-01-29", [], []⟩

/-- Second sample row; its display name is 平安银行（000001）. -/
def rec1 : Record := ⟨"000001", "平安银行", "1991-04-03", [], []⟩

/-- Sample dataset with `rec0` first. -/
def ds0 : List Record := [rec0, rec1]

/-- C3 is false as stated: for the selection 平安银行（999999）, the bracketed
identifier `999999` matches no record and a record (`rec1`) whose
`display_name` equals the pre-bracket substring 平安银行 exists, yet the
resolver never tries the display-name match — it goes straight to the
SelectionKey comparison and then falls back to the *first* record with the
non-exact signal. -/
theorem resolver_name_match_counterexample :
    extractCode "平安银行（999999）" = some "999999" ∧
    ds0.filter (fun x => x.code == "999999") = [] ∧
    beforeBracket "平安银行（999999）" = rec1.name ∧ rec1 ∈ ds0 ∧
    get_company_by_selection ds0 "平安银行（999999）" = .found rec0 false ∧
    get_company_by_selection ds0 "平安银行（999999）" ≠ .found rec1 true := by
  decide

/-- C3 (amended): for every non-sentinel selection the resolver stops at the
first success of: (1) exact `证券代码` match on the bracketed identifier when a
bracketed portion exists; (2) exact `证券简称` match on the pre-bracket
substring — but *only* when no bracketed portion exists; (3) exact
`企业展示名称` (SelectionKey) match on the whole selection; (4) the first record
of the dataset with the non-exact fallback signal. -/
theorem resolver_order (ds : List Record) (sel : String)
    (h1 : sel ≠ "") (h2 : sel ≠ "请选择企业") :
    (∀ c r rs, extractCode sel = some c →
       ds.filter (fun x => x.code == c) = r :: rs →
       get_company_by_selection ds sel = .found r true) ∧
    (∀ c r rs, extractCode sel = some c →
       ds.filter (fun x => x.code == c) = [] →
       ds.filter (fun x => displayName x == sel) = r :: rs →
       get_company_by_selection ds sel = .found r true) ∧
    (∀ r rs, extractCode sel = none →
       ds.filter (fun x => x.name == beforeBracket sel) = r :: rs →
       get_company_by_selection ds sel = .found r true) ∧
    (∀ r rs, extractCode sel = none →
       ds.filter (fun x => x.name == beforeBracket sel) = [] →
       ds.filter (fun x => displayName x == sel) = r :: rs →
       get_company_by_selection ds sel = .found r true) ∧
    (∀ c r rs, extractCode sel = some c →
       ds.filter (fun x => x.code == c) = [] →
       ds.filter (fun x => displayName x == sel) = [] →
       ds = r :: rs → get_company_by_selection ds sel = .found r false) ∧
    (∀ r rs, extractCode sel = none →
       ds.filter (fun x => x.name == beforeBracket sel) = [] →
       ds.filter (fun x => displayName x == sel) = [] →
       ds = r :: rs → get_company_by_selection ds sel = .found r false) := by
  refine ⟨?_, ?_, ?_, ?_, ?_, ?_⟩
  · intro c r rs hc hf; simp [get_company_by_selection, h1, h2, hc, hf]
  · intro c r rs hc hf hd; simp [get_company_by_selection, h1, h2, hc, hf, hd]
  · intro r rs hc hf; simp [get_company_by_selection, h1, h2, hc, hf]
  · intro r rs hc hf hd; simp [get_company_by_selection, h1, h2, hc, hf, hd]
  · intro c r rs hc hf hd hds
    simp [get_company_by_selection, h1, h2, hc, hf, hd]
    rw [hds]
  · intro r rs hc hf hd hds
    simp [get_company_by_selection, h1, h2, hc, hf, hd]
    rw [hds]

/-- Witness for C3 (amended): an exact bracketed-identifier match. -/
theorem resolver_order_witness :
    get_company_by_selection ds0 "万科（000002）" = .found rec0 true :=
  (resolver_order ds0 "万科（000002）" (by decide) (by decide)).1
    "000002" rec0 [] (by decide) (by decide)

/-! ### C5 -/

/-- C5: the tier is a deterministic function of `avg_value` alone, the
thresholds are inclusive lower bounds evaluated top-down with the first match
winning (≥5 优秀, ≥4 良好, ≥3 中等, otherwise 待提升), and the result is always
one of the four levels. -/
theorem tier_thresholds :
    (∀ (cfg : Config) (r₁ r₂ : Record),
        (computeMetrics cfg r₁).avg = (computeMetrics cfg r₂).avg →
        tierOf cfg r₁ = tierOf cfg r₂) ∧
    (∀ a : ℚ, (5 ≤ a → (gradeOf a).level = .excellent) ∧
        (4 ≤ a → a < 5 → (gradeOf a).level = .good) ∧
        (3 ≤ a → a < 4 → (gradeOf a).level = .moderate) ∧
        (a < 3 → (gradeOf a).level = .needsImprovement)) ∧
    (∀ (cfg : Config) (r : Record),
        tierOf cfg r = (gradeOf (computeMetrics cfg r).avg).level ∧
        (tierOf cfg r = .excellent ∨ tierOf cfg r = .good ∨
         tierOf cfg r = .moderate ∨ tierOf cfg r = .needsImprovement)) := by
  refine ⟨fun cfg r₁ r₂ h => by unfold tierOf; rw [h],
    fun a => ⟨fun h5 => ?_, fun h4 h5 => ?_, fun h3 h4 => ?_, fun h3 => ?_⟩,
    fun cfg r => ⟨rfl, ?_⟩⟩
  · simp only [gradeOf]; rw [if_pos h5]
  · simp only [gradeOf]; rw [if_neg (not_le.mpr h5), if_pos h4]
  · simp only [gradeOf]
    rw [if_neg (not_le.mpr (by linarith)), if_neg (not_le.mpr h4), if_pos h3]
  · simp only [gradeOf]
    rw [if_neg (not_le.mpr (by linarith)), if_neg (not_le.mpr (by linarith)),
      if_neg (not_le.mpr h3)]
  · cases h : tierOf cfg r <;> simp

/-- Witness for C5 at the four representative averages. -/
theorem tier_thresholds_witness :
    (gradeOf 5).level = Level.excellent ∧ (gradeOf 4).level = Level.good ∧
    (gradeOf 3).level = Level.moderate ∧ (gradeOf 0).level = Level.needsImprovement :=
  ⟨(tier_thresholds.2.1 5).1 (by norm_num),
   (tier_thresholds.2.1 4).2.1 (by norm_num) (by norm_num),
   (tier_thresholds.2.1 3).2.2.1 (by norm_num) (by norm_num),
   (tier_thresholds.2.1 0).2.2.2 (by norm_num)⟩

/-! ### C6 -/

/-- C6: the valid-score series is chronological (the year list is strictly
increasing); with fewer than three valid scores the trend is 稳定
unconditionally; with at least three it compares the chronologically last
valid score against the chronologically first one (上升 if greater, 下降 if
smaller, 稳定 on equality). -/
theorem trend_spec (cfg : Config) (r : Record) :
    (esgYears cfg).Pairwise (· < ·) ∧
    ((quantValues cfg r).length < 3 → (computeMetrics cfg r).trend = .stable) ∧
    (3 ≤ (quantValues cfg r).length →
      ((quantValues cfg r).headD 0 < (quantValues cfg r).getLastD 0 →
        (computeMetrics cfg r).trend = .rising) ∧
      ((quantValues cfg r).getLastD 0 < (quantValues cfg r).headD 0 →
        (computeMetrics cfg r).trend = .falling) ∧
      ((quantValues cfg r).headD 0 = (quantValues cfg r).getLastD 0 →
        (computeMetrics cfg r).trend = .stable)) := by
  refine ⟨(by decide : years.Pairwise (· < ·)).filter _, fun hlen => ?_, fun hlen => ?_⟩
  · by_cases hes : esgScores cfg r = []
    · simp [computeMetrics, hes]
    · simp [computeMetrics, hes, not_le.mpr hlen]
  · have hes : esgScores cfg r ≠ [] := by
      intro hh
      rw [quantValues, hh] at hlen
      simp at hlen
    have hmain : (computeMetrics cfg r).trend =
        (if (quantValues cfg r).headD 0 < (quantValues cfg r).getLastD 0 then Trend.rising
         else if (quantValues cfg r).getLastD 0 < (quantValues cfg r).headD 0 then Trend.falling
         else Trend.stable) := by
      simp [computeMetrics, hes, hlen]
    refine ⟨fun hc => ?_, fun hc => ?_, fun hc => ?_⟩
    · rw [hmain, if_pos hc]
    · rw [hmain, if_neg (lt_asymm hc), if_pos hc]
    · rw [hmain, if_neg (by omega), if_neg (by omega)]

/-- Configuration with columns for 2018-2020, matching end-to-end scenario A
of the specification. -/
def cfg3 : Config := ⟨fun y => decide (2018 ≤ y)⟩

/-- Record with the rising series 4, 5, 5 over 2018-2020. -/
def rr : Record := ⟨"000001", "平安银行", "1991-04-03", [],
  [(2018, "4"), (2019, "5"), (2020, "5")]⟩

/-- Witness for C6: three valid scores 4, 5, 5 give a 上升 trend. -/
theorem trend_spec_witness : (computeMetrics cfg3 rr).trend = Trend.rising :=
  ((trend_spec cfg3 rr).2.2 (by decide)).1 (by decide)

/-! ### C7 -/

/-- C7: the report composition is pure and deterministic — it reads only the
three cleaned string columns and the per-year quant cells of the supported
years, so any two records agreeing on those produce byte-identical report
text. -/
theorem compose_deterministic (cfg : Config) (r₁ r₂ : Record)
    (hn : r₁.name = r₂.name) (hc : r₁.code = r₂.code)
    (hl : r₁.listingDate = r₂.listingDate)
    (hq : ∀ y ∈ esgYears cfg, quantCell r₁ y = quantCell r₂ y) :
    generate_esg_analysis cfg (some r₁) = generate_esg_analysis cfg (some r₂) := by
  have hes : esgScores cfg r₁ = esgScores cfg r₂ :=
    List.map_congr_left fun y hy => by rw [hq y hy]
  have hm : computeMetrics cfg r₁ = computeMetrics cfg r₂ := by
    simp only [computeMetrics, quantValues, hes]
  simp only [generate_esg_analysis, hm, hn, hc, hl]

/-- First copy of a sample row for the determinism witness. -/
def rA : Record := ⟨"000001", "平安银行", "1991-04-03", [], [(2019, "5"), (2020, "5")]⟩

/-- Second, definitionally separate copy with identical field values. -/
def rB : Record := ⟨"000001", "平安银行", "1991-04-03", [], [(2019, "5"), (2020, "5")]⟩

/-- Witness for C7: the two identical-valued copies give byte-identical
reports. -/
theorem compose_deterministic_witness :
    generate_esg_analysis cfg1 (some rA) = generate_esg_analysis cfg1 (some rB) :=
  compose_deterministic cfg1 rA rB rfl rfl rfl (fun _ _ => rfl)

/-! ### C8 -/

/-- C8: an empty or sentinel 请选择企业 selection resolves to "no record" (not
an error), and composing the report for an absent record yields the fixed
single-section placeholder. -/
theorem sentinel_and_placeholder :
    (∀ (ds : List Record) (sel : String), sel = "" ∨ sel = "请选择企业" →
        get_company_by_selection ds sel = Resolved.noSelection) ∧
    (∀ cfg : Config,
        generate_esg_analysis cfg none = "# 暂无企业数据\n\n## 请选择企业后查看详细分析报告") :=
  ⟨fun ds sel h => by unfold get_company_by_selection; rw [if_pos h], fun _ => rfl⟩

/-- Witness for C8 at the sentinel selection. -/
theorem sentinel_and_placeholder_witness :
    get_company_by_selection ds0 "请选择企业" = Resolved.noSelection :=
  sentinel_and_placeholder.1 ds0 "请选择企业" (Or.inr rfl)

/-! ### C9 -/

theorem filter_pos_map_eq (f : Nat → Nat) :
    ∀ l : List Nat, ((l.map f).filter (fun v => decide (0 < v))) =
      (l.filter (fun y => decide (f y ≠ 0))).map f := by
  intro l
  induction l with
  | nil => rfl
  | cons a as ih =>
    by_cases h : f a = 0
    · simp [h, ih]
    · simp [h, Nat.pos_of_ne_zero h, ih]

theorem mem_quantValues_one_le (cfg : Config) (r : Record) (v : Nat)
    (hv : v ∈ quantValues cfg r) : 1 ≤ v := by
  have h := List.of_mem_filter hv
  simp at h
  omega

theorem le_foldl_max (c : Nat) : ∀ (vs : List Nat) (v : Nat), c ≤ v → c ≤ vs.foldl max v := by
  intro vs
  induction vs with
  | nil => exact fun v h => h
  | cons w ws ih => exact fun v h => ih (max v w) (le_trans h (le_max_left v w))

theorem le_foldl_min (c : Nat) : ∀ (vs : List Nat) (v : Nat), c ≤ v → (∀ w ∈ vs, c ≤ w) →
    c ≤ vs.foldl min v := by
  intro vs
  induction vs with
  | nil => exact fun v h _ => h
  | cons w ws ih =>
    intro v h hall
    exact ih (min v w) (le_min h (hall w (by simp))) (fun x hx => hall x (by simp [hx]))

theorem length_le_sum : ∀ l : List Nat, (∀ v ∈ l, 1 ≤ v) → l.length ≤ l.sum := by
  intro l
  induction l with
  | nil => simp
  | cons a as ih =>
    intro h
    simp only [List.length_cons, List.sum_cons]
    have h1 := h a (by simp)
    have h2 := ih (fun v hv => h v (by simp [hv]))
    omega

/-- C9: a year whose cell parses to 0 is excluded from the valid-score list
exactly like a missing or non-numeric cell (the list equals the parsed scores
of the years that do not parse to 0), every valid score is at least 1, and
whenever at least one valid score exists the min, max and average are all at
least 1. -/
theorem valid_scores_positive :
    (∀ (cfg : Config) (r : Record), quantValues cfg r =
        ((esgYears cfg).filter (fun y => decide (quantParse (quantCell r y) ≠ 0))).map
          (fun y => quantParse (quantCell r y))) ∧
    (∀ (cfg : Config) (r : Record) (v : Nat), v ∈ quantValues cfg r → 1 ≤ v) ∧
    (∀ (cfg : Config) (r : Record), quantValues cfg r ≠ [] →
        1 ≤ (computeMetrics cfg r).minv ∧ 1 ≤ (computeMetrics cfg r).maxv ∧
        1 ≤ (computeMetrics cfg r).avg) := by
  refine ⟨fun cfg r => ?_, mem_quantValues_one_le, fun cfg r hq => ?_⟩
  · rw [quantValues, esgScores, List.map_map]
    exact filter_pos_map_eq _ _
  · have hes : esgScores cfg r ≠ [] := by
      intro hh
      exact hq (by simp [quantValues, hh])
    obtain ⟨v, vs, hqs⟩ := List.exists_cons_of_ne_nil hq
    have hv : 1 ≤ v := mem_quantValues_one_le cfg r v (by rw [hqs]; simp)
    have hvs : ∀ w ∈ vs, 1 ≤ w := fun w hw =>
      mem_quantValues_one_le cfg r w (by rw [hqs]; simp [hw])
    refine ⟨?_, ?_, ?_⟩
    · have hmin : (computeMetrics cfg r).minv = vs.foldl min v := by
        simp [computeMetrics, hes, hqs]
      rw [hmin]
      exact le_foldl_min 1 vs v hv hvs
    · have hmax : (computeMetrics cfg r).maxv = vs.foldl max v := by
        simp [computeMetrics, hes, hqs]
      rw [hmax]
      exact le_foldl_max 1 vs v hv
    · have havg : (computeMetrics cfg r).avg =
          ((quantValues cfg r).sum : ℚ) / ((quantValues cfg r).length : ℚ) := by
        simp [computeMetrics, hes, hq]
      have hlen : 0 < (quantValues cfg r).length := List.length_pos.mpr hq
      have hsum : (quantValues cfg r).length ≤ (quantValues cfg r).sum :=
        length_le_sum _ (mem_quantValues_one_le cfg r)
      rw [havg, one_le_div (by exact_mod_cast hlen)]
      exact_mod_cast hsum

/-- Witness for C9 at the rising sample record: its three valid scores give
min 4, max 5 and average 14/3, all at least 1. -/
theorem valid_scores_positive_witness :
    1 ≤ (computeMetrics cfg3 rr).minv ∧ 1 ≤ (computeMetrics cfg3 rr).maxv ∧
    1 ≤ (computeMetrics cfg3 rr).avg :=
  valid_scores_positive.2.2 cfg3 rr (by decide)

/-! ### C10 -/

/-- C10: the renderer's line classifier is total with fixed precedence — a
stripped-blank line is a spacer; otherwise 一、/1. prefixes always give
Heading-2 (also for numbered list items), then （一）/2. give Heading-3, then
`- `/`• ` give list items, and everything else is body text. -/
theorem classify_line_spec (s : String) :
    (classifyLine s = .spacer ↔ s.trim = "") ∧
    (classifyLine s = .h2 ↔ s.trim ≠ "" ∧
        (s.trim.startsWith "一、" || s.trim.startsWith "1.") = true) ∧
    (classifyLine s = .h3 ↔ s.trim ≠ "" ∧
        ¬(s.trim.startsWith "一、" || s.trim.startsWith "1.") = true ∧
        (s.trim.startsWith "（一）" || s.trim.startsWith "2.") = true) ∧
    (classifyLine s = .listItem ↔ s.trim ≠ "" ∧
        ¬(s.trim.startsWith "一、" || s.trim.startsWith "1.") = true ∧
        ¬(s.trim.startsWith "（一）" || s.trim.startsWith "2.") = true ∧
        (s.trim.startsWith "- " || s.trim.startsWith "• ") = true) ∧
    (classifyLine s = .body ↔ s.trim ≠ "" ∧
        ¬(s.trim.startsWith "一、" || s.trim.startsWith "1.") = true ∧
        ¬(s.trim.startsWith "（一）" || s.trim.startsWith "2.") = true ∧
        ¬(s.trim.startsWith "- " || s.trim.startsWith "• ") = true) := by
  by_cases h0 : s.trim = "" <;>
    by_cases hA : (s.trim.startsWith "一、" || s.trim.startsWith "1.") = true <;>
      by_cases hB : (s.trim.startsWith "（一）" || s.trim.startsWith "2.") = true <;>
        by_cases hC : (s.trim.startsWith "- " || s.trim.startsWith "• ") = true <;>
          simp_all [classifyLine]
